import Mathlib

/-!
Verification of the hopr-alerts availability scraper.

This file gives a shallow embedding, in Lean 4, of the pure logic of the
two browser-driven scrapers of the repository
(`src/app/lib/scraper.ts`, `src/app/lib/bbb-scraper.ts`, the standalone
script `src/scripts/check-bbb.ts` and its variants among the unnamed
sources), and proves or refutes the frozen claims about them.

Page interactions (navigation, clicks, attribute reads) are modelled by
explicit data: an element is a record of the attribute values the code
reads, a page is a record of the outcomes the code observes, and a call
that can throw is an `Except String` value.  Everything is executable.
-/

/-- The three named day periods of the BBB scraper (`src/app/lib/bbb-types.ts`). -/
inductive TimePeriod where
  | morning
  | afternoon
  | evening
deriving DecidableEq, Repr

/-- AM/PM marker, the normalized value of `match[3]?.toUpperCase()`. -/
inductive Meridiem where
  | AM
  | PM
deriving DecidableEq, Repr

/-- Result of a successful JavaScript regex match of the time pattern
`(\d{1,2}):(\d{2})\s*(AM|PM)` (optionally with the meridiem group optional).
`hours` is `parseInt(match[1])`, `minutes` is `match[2]`, `meridiem` is
group 3 normalized by `toUpperCase`, `matched` is `match[0]`. -/
structure TimeMatch where
  hours : Nat
  minutes : String
  meridiem : Option Meridiem
  matched : String
deriving DecidableEq, Repr

/-- ASCII digit test, the semantics of `\d`. -/
def isDigitChar (c : Char) : Bool := '0' ≤ c && c ≤ '9'

/-- Whitespace test, the semantics of `\s` on the ASCII range. -/
def isWSChar (c : Char) : Bool :=
  c = ' ' || c = '\t' || c = '\n' || c = '\r' || c = '\x0b' || c = '\x0c'

/-- Model of `parseInt` on a nonempty all-digit string, as a fold over its digits. -/
def digitsToNat (cs : List Char) : Nat :=
  cs.foldl (fun a c => 10 * a + (c.toNat - 48)) 0

/-- Case-insensitive match of the alternation `AM|PM` at the head of the
input; returns the normalized meridiem, the raw matched characters and the
rest of the input. -/
def parseMer : List Char → Option (Meridiem × List Char × List Char)
  | c1 :: c2 :: rest =>
    if (c1 = 'A' ∨ c1 = 'a') ∧ (c2 = 'M' ∨ c2 = 'm') then
      some (Meridiem.AM, [c1, c2], rest)
    else if (c1 = 'P' ∨ c1 = 'p') ∧ (c2 = 'M' ∨ c2 = 'm') then
      some (Meridiem.PM, [c1, c2], rest)
    else none
  | _ => none

/-- Match the tail `:(\d{2})\s*(AM|PM)` (meridiem optional when `optMer`)
after the hour digits `hourDigits` have been consumed.  `\s*` is greedy; no
backtracking from it is needed because no whitespace character can start
`AM|PM`. -/
def matchTail (optMer : Bool) (hourDigits : List Char) : List Char → Option TimeMatch
  | ':' :: m1 :: m2 :: rest =>
    if isDigitChar m1 && isDigitChar m2 then
      let ws := rest.takeWhile isWSChar
      let rest2 := rest.dropWhile isWSChar
      match parseMer rest2 with
      | some (mer, merCs, _) =>
        some ⟨digitsToNat hourDigits, String.mk [m1, m2], some mer,
          String.mk (hourDigits ++ ':' :: m1 :: m2 :: (ws ++ merCs))⟩
      | none =>
        if optMer then
          some ⟨digitsToNat hourDigits, String.mk [m1, m2], none,
            String.mk (hourDigits ++ ':' :: m1 :: m2 :: ws)⟩
        else none
    else none
  | _ => none

/-- Attempt to match the whole time pattern at the current position.
`\d{1,2}` is greedy with backtracking: the two-digit hour is tried first,
and on failure of the remainder the one-digit hour is tried. -/
def tryMatchAt (optMer : Bool) : List Char → Option TimeMatch
  | [] => none
  | c1 :: rest =>
    if isDigitChar c1 then
      match rest with
      | c2 :: rest2 =>
        if isDigitChar c2 then
          match matchTail optMer [c1, c2] rest2 with
          | some m => some m
          | none => matchTail optMer [c1] rest
        else matchTail optMer [c1] rest
      | [] => matchTail optMer [c1] []
    else none

/-- Leftmost match of the time pattern in the input, the semantics of
`text.match(/(\d{1,2}):(\d{2})\s*(AM|PM)/i)` (and of the variant with an
optional meridiem group when `optMer` is `true`): positions are tried left
to right and the first successful one wins. -/
def jsFindTime (optMer : Bool) : List Char → Option TimeMatch
  | [] => none
  | c :: rest =>
    match tryMatchAt optMer (c :: rest) with
    | some m => some m
    | none => jsFindTime optMer rest

/-- The 12-to-24 hour conversion shared by `filterSlotsByTimeWindow`
(`src/app/lib/scraper.ts:214-218`) and `getTimePeriod`
(`src/app/lib/bbb-scraper.ts:263-267`), which contain the identical code
`if (meridiem === 'PM' && hours !== 12) hours += 12; else if
(meridiem === 'AM' && hours === 12) hours = 0;`. -/
def to24Hour (hours : Nat) (mer : Option Meridiem) : Nat :=
  if mer = some Meridiem.PM ∧ hours ≠ 12 then hours + 12
  else if mer = some Meridiem.AM ∧ hours = 12 then 0
  else hours

/-- Model of `n.toString().padStart(2, '0')`. -/
def pad2 (n : Nat) : String :=
  let s := toString n
  if s.length < 2 then "0" ++ s else s

/-- One extracted OpenTable reservation slot (`src/app/lib/types.ts`). -/
structure ReservationSlot where
  date : String
  time : String
  partySize : Nat
  available : Bool
deriving DecidableEq, Repr

/-- One extracted BBB slot (`src/app/lib/bbb-types.ts`). -/
structure BBBSlot where
  time : String
  period : TimePeriod
  available : Bool
deriving DecidableEq, Repr

/-- The per-slot 24-hour time string computed inside
`filterSlotsByTimeWindow` (`src/app/lib/scraper.ts:207-220`):
parse the slot time with the optional-meridiem pattern, convert the hour,
and format as `HH:MM:00`; `none` when the pattern does not match. -/
def slotTime24 (time : String) : Option String :=
  match jsFindTime true time.data with
  | none => none
  | some m => some (pad2 (to24Hour m.hours m.meridiem) ++ ":" ++ m.minutes ++ ":00")

/-- Model of `filterSlotsByTimeWindow` (`src/app/lib/scraper.ts:197-224`): keep the
slots whose converted time lies in the closed window; slots whose time does
not match the pattern are dropped (the code returns `false` there).  The
window comparison is JavaScript string comparison, lexicographic on
characters. -/
def filterSlotsByTimeWindow (slots : List ReservationSlot)
    (windowStart windowEnd : String) : List ReservationSlot :=
  slots.filter (fun slot =>
    match slotTime24 slot.time with
    | none => false
    | some t => decide (windowStart ≤ t) && decide (t ≤ windowEnd))

/-- Model of `getTimePeriod` (`src/app/lib/bbb-scraper.ts:256-272`). -/
def getTimePeriod (timeStr : String) : TimePeriod :=
  match jsFindTime true timeStr.data with
  | none => TimePeriod.morning
  | some m =>
    let hours := to24Hour m.hours m.meridiem
    if hours < 12 then TimePeriod.morning
    else if hours < 16 then TimePeriod.afternoon
    else TimePeriod.evening

/-- Snapshot of one scanned `<button>` element: the values the extraction
loop reads via `textContent()` and `getAttribute('disabled')`,
`getAttribute('aria-disabled')`, `getAttribute('class')`.  A `getAttribute`
returns the attribute string or `null`, modelled as `Option String`. -/
structure BtnElem where
  text : Option String
  disabled : Option String
  ariaDisabled : Option String
  className : Option String
deriving DecidableEq, Repr

/-- Does `s` start with `sub`? -/
def charsLeadWith : List Char → List Char → Bool
  | [], _ => true
  | _ :: _, [] => false
  | a :: sub, b :: s => a = b && charsLeadWith sub s

/-- Does `s` contain `sub` as a contiguous run, at any position? -/
def charsContain (s sub : List Char) : Bool :=
  match s with
  | [] => charsLeadWith sub []
  | _ :: rest => charsLeadWith sub s || charsContain rest sub

/-- JavaScript substring containment, `s.includes(sub)`. -/
def substrContains (s sub : String) : Bool := charsContain s.data sub.data

/-- The slot-extraction loop of `checkTimePeriod`
(`src/app/lib/bbb-scraper.ts:218-250`), identical to the loop of
`scrapeOpenTable` (`src/app/lib/scraper.ts:109-146`) up to the record
built: skip an element with falsy text (`if (!text) continue`), skip one
whose text has no leftmost match of `(\d{1,2}):(\d{2})\s*(AM|PM)/i`, and
push `{ time: timeMatch[0], period, available: true }` when
`isDisabled === null && ariaDisabled !== 'true' &&
!className.includes('disabled')`, where `className` is the `class`
attribute defaulted to the empty string. -/
def extractTimeSlots (period : TimePeriod) : List BtnElem → List BBBSlot
  | [] => []
  | b :: rest =>
    match b.text with
    | none => extractTimeSlots period rest
    | some t =>
      if t = "" then extractTimeSlots period rest
      else
        match jsFindTime false t.data with
        | none => extractTimeSlots period rest
        | some m =>
          let className := b.className.getD ""
          if b.disabled = none ∧ b.ariaDisabled ≠ some "true" ∧
              substrContains className "disabled" = false then
            ⟨m.matched, period, true⟩ :: extractTimeSlots period rest
          else
            extractTimeSlots period rest

/-- Per-element classification following the (amended) wording of the
extraction contract: an element becomes a Slot exactly when its text has a
match of the time pattern and it is available, availability being the
conjunction of: no `disabled` attribute, `aria-disabled` not the string
`"true"`, and the class attribute not containing `"disabled"` as a
substring. -/
def slotOfElement (period : TimePeriod) (b : BtnElem) : Option BBBSlot :=
  match b.text with
  | none => none
  | some t =>
    match jsFindTime false t.data with
    | none => none
    | some m =>
      if b.disabled = none ∧ b.ariaDisabled ≠ some "true" ∧
          substrContains (b.className.getD "") "disabled" = false then
        some ⟨m.matched, period, true⟩
      else none

/-- Split a character list into maximal runs of non-space characters; the
accumulator holds the current token reversed. -/
def tokensAux : List Char → List Char → List String
  | [], acc => if acc = [] then [] else [String.mk acc.reverse]
  | c :: rest, acc =>
    if c = ' ' then
      if acc = [] then tokensAux rest []
      else String.mk acc.reverse :: tokensAux rest []
    else tokensAux rest (c :: acc)

/-- The DOM `classList` of a `class` attribute value: the whitespace-split
tokens.  Used only to state what the claim's literal words ("the class
list not containing `disabled`") would mean. -/
def classList (s : String) : List String := tokensAux s.data []

/-- Token membership in a token list. -/
def listHasToken (l : List String) (t : String) : Bool :=
  l.any (fun x => x = t)

/-- Result record for one checked period
(`BBBScrapeResult`, `src/app/lib/bbb-scraper.ts:10-14`). -/
structure BBBScrapeResult where
  period : TimePeriod
  slots : List BBBSlot
  error : Option String
deriving DecidableEq, Repr

/-- The page observations `checkTimePeriod`
(`src/app/lib/bbb-scraper.ts:189-253`) makes for one period, each as an
`Except String` because the underlying Playwright call can throw:
`tabClick` is the period-tab `isVisible`/`click`/wait sequence,
`noAvailCount` the count of the "no availability" text signature, and
`buttons` the `page.$$('button')` snapshot. -/
structure PeriodPage where
  tabClick : Except String Unit
  noAvailCount : Except String Nat
  buttons : Except String (List BtnElem)

/-- Model of `checkTimePeriod` (`src/app/lib/bbb-scraper.ts:189-253`): click the
period tab, short-circuit to zero slots when the "no availability"
signature is present (`if (noAvailCount > 0) return []`), otherwise run the
extraction loop over the scanned buttons. -/
def checkTimePeriod (pp : PeriodPage) (period : TimePeriod) :
    Except String (List BBBSlot) :=
  match pp.tabClick with
  | Except.error e => Except.error e
  | Except.ok _ =>
    match pp.noAvailCount with
    | Except.error e => Except.error e
    | Except.ok n =>
      if 0 < n then Except.ok []
      else
        match pp.buttons with
        | Except.error e => Except.error e
        | Except.ok btns => Except.ok (extractTimeSlots period btns)

/-- The world one call of `scrapeBBBAvailability`
(`src/app/lib/bbb-scraper.ts:18-107`) observes, in the order the code
performs the steps: `launch` is `chromium.launch` (if it throws, `browser`
is never assigned); `nav` covers `newContext`/`newPage`/`goto`/waits;
`dateSelected` is the boolean returned by `selectDate`; `next1`, `guests`,
`next2` are the first Next click, `setGuestCount`, and the second Next
click; `periodPage` gives the observations for each period's check. -/
structure BBBWorld where
  launch : Except String Unit
  nav : Except String Unit
  dateSelected : Bool
  next1 : Except String Unit
  guests : Except String Unit
  next2 : Except String Unit
  periodPage : TimePeriod → PeriodPage

/-- The per-period try/catch of the period loop
(`src/app/lib/bbb-scraper.ts:78-92`): a successful check is recorded as
`{ period, slots }`, a thrown one as `{ period, slots: [], error:
error.message }`. -/
def periodResult (w : BBBWorld) (p : TimePeriod) : BBBScrapeResult :=
  match checkTimePeriod (w.periodPage p) p with
  | Except.ok slots => ⟨p, slots, none⟩
  | Except.error e => ⟨p, [], some e⟩

/-- The body of the `try` block of `scrapeBBBAvailability`
(`src/app/lib/bbb-scraper.ts:29-97`): navigation, then
`if (!dateSelected) throw new Error('Failed to select target date')`,
then the two Next clicks around `setGuestCount`, then the period loop.
Every period of the request is checked and its result pushed, in order. -/
def runBBBBody (w : BBBWorld) (periods : List TimePeriod) :
    Except String (List BBBScrapeResult) :=
  match w.nav with
  | Except.error e => Except.error e
  | Except.ok _ =>
    if w.dateSelected then
      match w.next1 with
      | Except.error e => Except.error e
      | Except.ok _ =>
        match w.guests with
        | Except.error e => Except.error e
        | Except.ok _ =>
          match w.next2 with
          | Except.error e => Except.error e
          | Except.ok _ => Except.ok (periods.map (periodResult w))
    else
      Except.error "Failed to select target date"

/-- Model of `scrapeBBBAvailability` (`src/app/lib/bbb-scraper.ts:18-107`) with its
`try`/`catch`/`finally`: the `catch` rethrows, and the `finally` runs
`if (browser) await browser.close()`, so the browser is closed whenever the
launch succeeded, on the normal and on every throwing path alike.  The
second component records whether the browser was closed. -/
def scrapeBBBAvailability (w : BBBWorld) (periods : List TimePeriod) :
    Except String (List BBBScrapeResult) × Bool :=
  match w.launch with
  | Except.error e => (Except.error e, false)
  | Except.ok _ => (runBBBBody w periods, true)

/-- A calendar day control, with the fields the day-click loop of
`selectDate` (`src/app/lib/bbb-scraper.ts:146-162`) reads. -/
structure DayBtn where
  text : Option String
  disabled : Option String
  ariaDisabled : Option String
deriving DecidableEq, Repr

/-- The calendar page as observed by `selectDate`
(`src/app/lib/bbb-scraper.ts:109-165`): `monthYear` is the month/year
heading — `none` when the heading text is `null` (the loop waits and
continues), `some none` when the text does not parse to a month and year
(`new Date(text + ' 1')` yields `NaN`, which compares unequal, so the loop
navigates), and `some (some (month, year))` when it parses.  `buttons` is
the `page.$$('button')` snapshot used for the day click. -/
structure CalPage where
  monthYear : Option (Option (Nat × Nat))
  buttons : List DayBtn
deriving DecidableEq, Repr

/-- Model of JavaScript `String.prototype.trim` on the ASCII range:
drop whitespace from both ends. -/
def jsTrim (s : String) : String :=
  String.mk (((s.data.dropWhile isWSChar).reverse.dropWhile isWSChar).reverse)

/-- JavaScript truthiness of a `getAttribute` result: `!x` lets `null` and
the empty string pass.  The day-click guard of `selectDate` is
`if (!isDisabled && ariaDisabled !== 'true')`, unlike the slot-extraction
guard which is `isDisabled === null`. -/
def jsFalsyAttr (o : Option String) : Bool := o = none || o = some ""

/-- The day-click loop of `selectDate`
(`src/app/lib/bbb-scraper.ts:146-164`): scan the buttons in order and click
the first one whose trimmed text equals the target day number and whose
`disabled` attribute is falsy and `aria-disabled` is not `"true"`; return
whether one was clicked. -/
def clickTargetDay (targetDay : Nat) : List DayBtn → Bool
  | [] => false
  | b :: rest =>
    match b.text with
    | none => clickTargetDay targetDay rest
    | some t =>
      if jsTrim t = toString targetDay ∧ jsFalsyAttr b.disabled = true ∧
          b.ariaDisabled ≠ some "true" then true
      else clickTargetDay targetDay rest

/-- The month-navigation loop of `selectDate`
(`src/app/lib/bbb-scraper.ts:115-143`), `for (let i = 0; i <
maxNavigations; i++)` with `maxNavigations = 12`: read the displayed
month/year; when the text is missing, wait and consume an iteration; when
it differs from the target, click the next-month control — modelled by the
page transition `step` — and consume an iteration; when it matches, stop.
When the bound runs out the loop simply ends and the function falls
through to the day click. -/
def navLoop (step : CalPage → CalPage) (tm ty : Nat) :
    Nat → CalPage → CalPage
  | 0, p => p
  | i + 1, p =>
    match p.monthYear with
    | none => navLoop step tm ty i p
    | some none => navLoop step tm ty i (step p)
    | some (some (m, y)) =>
      if m = tm ∧ y = ty then p
      else navLoop step tm ty i (step p)

/-- Model of `selectDate` (`src/app/lib/bbb-scraper.ts:109-165`): run the bounded
month-navigation loop, then — whether or not the displayed month ever
matched — run the day-click scan on the resulting page and return its
boolean. -/
def selectDate (step : CalPage → CalPage) (tm ty td : Nat) (p : CalPage) : Bool :=
  clickTargetDay td (navLoop step tm ty 12 p).buttons

/-- State of the retry loop of `main` (`src/scripts/check-bbb.ts:57-88`
and `src/unnamed/part_000:348-379`): `lastError` and `slots` are the two
mutable locals; `sleeps` counts the executed `await sleep(RETRY_DELAY_MS)`
calls and `tries` the executed `scrapeDisney` calls. -/
structure RetryState where
  lastError : Option String
  slots : List BBBSlot
  sleeps : Nat
  tries : Nat
deriving DecidableEq, Repr

/-- One pass of `for (let attempt = 1; attempt <= MAX_RETRIES; attempt++)`
(`src/scripts/check-bbb.ts:64-79`): call the scrape; on success store the
slots, clear `lastError` and break; on a throw store the message and, only
when `attempt < MAX_RETRIES`, sleep the fixed backoff and continue.  The
fuel argument equals the number of remaining admissible attempts, so the
`0` case is never reached from `runRetryLoop`. -/
def retryGo (scrape : Nat → Except String (List BBBSlot)) (maxRetries : Nat) :
    Nat → Nat → RetryState → RetryState
  | 0, _, st => st
  | rem + 1, attempt, st =>
    match scrape attempt with
    | Except.ok s =>
      { st with tries := st.tries + 1, slots := s, lastError := none }
    | Except.error e =>
      if attempt < maxRetries then
        retryGo scrape maxRetries rem (attempt + 1)
          { st with
            tries := st.tries + 1
            lastError := some e
            sleeps := st.sleeps + 1 }
      else
        { st with tries := st.tries + 1, lastError := some e }

/-- The whole retry loop, started at `attempt = 1` with empty state. -/
def runRetryLoop (scrape : Nat → Except String (List BBBSlot))
    (maxRetries : Nat) : RetryState :=
  retryGo scrape maxRetries maxRetries 1 ⟨none, [], 0, 0⟩

/-- The reporting step after the retry loop
(`src/scripts/check-bbb.ts:81-87`): on exhaustion report an empty slot
list together with the last error message, otherwise report the scraped
slots with no error. -/
def reportPayload (st : RetryState) : List BBBSlot × Option String :=
  match st.lastError with
  | some e => ([], some e)
  | none => (st.slots, none)

/-- The weekday-name table of `getNextDayOfWeek`
(`src/app/lib/scraper.ts:167-175`), index 0 = Sunday as in
JavaScript `Date.getDay()`. -/
def dayNames : List String :=
  ["Sunday", "Monday", "Tuesday", "Wednesday", "Thursday", "Friday", "Saturday"]

/-- Model of `Array.prototype.indexOf` specialised to strings: the index of the
first occurrence, `none` when absent (the source compares with `-1`). -/
def indexOfAux (target : String) : List String → Nat → Option Nat
  | [], _ => none
  | d :: rest, i => if d = target then some i else indexOfAux target rest (i + 1)

/-- Day of week of an absolute day number (days since 1970-01-01, which
was a Thursday), with the `Date.getDay()` convention 0 = Sunday. -/
def weekday (d : Nat) : Nat := (d + 4) % 7

/-- The date arithmetic of `getNextDayOfWeek`
(`src/app/lib/scraper.ts:182-193`): `daysUntilTarget = targetDay -
todayDay`, bumped by 7 when not positive, added to today. -/
def nextOccurrence (today idx : Nat) : Nat :=
  let diff : Int := (idx : Int) - (weekday today : Int)
  let daysUntilTarget : Int := if diff ≤ 0 then diff + 7 else diff
  today + daysUntilTarget.toNat

/-- Model of `getNextDayOfWeek` (`src/app/lib/scraper.ts:166-194`): resolve the
weekday name through the table, throwing on an unknown name, and return
the next occurrence as an absolute day number (the source returns the same
day formatted `YYYY-MM-DD`). -/
def getNextDayOfWeek (today : Nat) (dayName : String) : Except String Nat :=
  match indexOfAux dayName dayNames 0 with
  | none => Except.error ("Invalid day name: " ++ dayName)
  | some targetDay => Except.ok (nextOccurrence today targetDay)

/-- The 24-hour hour a valid 12-hour reading should convert to, written
from the claim: hour 12 with AM becomes 0, hour 12 with PM stays 12, PM
hours other than 12 gain 12, AM hours other than 12 are unchanged. -/
def claim24Hour (h : Nat) : Meridiem → Nat
  | Meridiem.AM => if h = 12 then 0 else h
  | Meridiem.PM => if h = 12 then 12 else h + 12

/-- Canonical uppercase rendering of a meridiem. -/
def merChars : Meridiem → List Char
  | Meridiem.AM => ['A', 'M']
  | Meridiem.PM => ['P', 'M']

/-- The hour part of a valid 12-hour time string: one or two digit
characters whose `parseInt` value is `h`. -/
def HourChars (hcs : List Char) (h : Nat) : Prop :=
  (∃ d, hcs = [d] ∧ isDigitChar d = true ∧ digitsToNat [d] = h) ∨
  (∃ d1 d2, hcs = [d1, d2] ∧ isDigitChar d1 = true ∧ isDigitChar d2 = true ∧
    digitsToNat [d1, d2] = h)

/-- A button carrying a classic disabled-style class marker: its class
attribute is the single token `time-slot--disabled`, which contains
`disabled` as a substring but is not the token `disabled`. -/
def bC2 : BtnElem := ⟨some "7:30 PM", none, none, some "time-slot--disabled"⟩

/-- A calendar page stuck on January 2026 (month index 0) that does offer
an enabled control labelled `15`. -/
def pC4 : CalPage := ⟨some (some (0, 2026)), [⟨some "15", none, none⟩]⟩

/-- A period page whose panel shows the "no availability" signature. -/
def ppNoAvail : PeriodPage := ⟨Except.ok (), Except.ok 1, Except.ok []⟩

/-- A period page with no "no availability" signature and one enabled
`5:30 PM` slot button. -/
def ppOneSlot : PeriodPage :=
  ⟨Except.ok (), Except.ok 0, Except.ok [⟨some "5:30 PM", none, none, some "time-slot"⟩]⟩

/-- A world where the browser launches and navigation succeeds but the
target day cannot be located (`selectDate` returned `false`). -/
def wC3 : BBBWorld :=
  ⟨Except.ok (), Except.ok (), false, Except.ok (), Except.ok (), Except.ok (),
    fun _ => ppNoAvail⟩

/-- A world where the browser launches but navigation times out. -/
def wC7 : BBBWorld :=
  ⟨Except.ok (), Except.error "page.goto: Timeout 30000ms exceeded", true,
    Except.ok (), Except.ok (), Except.ok (), fun _ => ppNoAvail⟩

/-- A fully successful world whose morning panel shows the "no
availability" signature and whose evening panel offers one enabled slot. -/
def wC8 : BBBWorld :=
  ⟨Except.ok (), Except.ok (), true, Except.ok (), Except.ok (), Except.ok (),
    fun p =>
      match p with
      | TimePeriod.morning => ppNoAvail
      | TimePeriod.afternoon => ppNoAvail
      | TimePeriod.evening => ppOneSlot⟩

/-- A scrape function that throws on the first two attempts and succeeds
on the third. -/
def scrapeC5fn : Nat → Except String (List BBBSlot) :=
  fun n =>
    match n with
    | 3 => Except.ok [⟨"5:30 PM", TimePeriod.evening, true⟩]
    | n => Except.error ("fail " ++ toString n)

/-- A scrape function that throws on every attempt. -/
def scrapeC6fn : Nat → Except String (List BBBSlot) :=
  fun _ => Except.error "scrape failed"

/-- Helper: when every attempt throws, the retry loop runs to the last
admissible attempt, keeping the last message and never touching the slot
list. -/
theorem retryGo_all_fail (scrape : Nat → Except String (List BBBSlot))
    (e : Nat → String) (m : Nat)
    (hfail : ∀ i, scrape i = Except.error (e i)) :
    ∀ (rem attempt : Nat) (st : RetryState), 1 ≤ rem → attempt + rem = m + 1 →
      retryGo scrape m rem attempt st =
        ⟨some (e m), st.slots, st.sleeps + (rem - 1), st.tries + rem⟩ := by
  intro rem
  induction rem with
  | zero => intro attempt st h1 _; omega
  | succ r ih =>
    intro attempt st _ heq
    by_cases hlt : attempt < m
    · have hr : 1 ≤ r := by omega
      have hrec := ih (attempt + 1)
        { st with
          tries := st.tries + 1
          lastError := some (e attempt)
          sleeps := st.sleeps + 1 } hr (by omega)
      simp only [retryGo, hfail attempt, hlt, if_true]
      rw [hrec]
      simp only [RetryState.mk.injEq, true_and, and_true]
      omega
    · have hm : attempt = m := by omega
      subst hm
      simp only [retryGo, hfail attempt, hlt, if_false]
      simp only [RetryState.mk.injEq, true_and, and_true]
      omega

/-- Claim C3 counterexample: in a world where the browser launches, the
page loads, but the target day cannot be located as an enabled clickable
calendar control (`selectDate` returns `false`), `scrapeBBBAvailability`
propagates the thrown error `Failed to select target date` — the outcome
for that target is not a success with an empty slot list. -/
theorem c3_counterexample :
    wC3.dateSelected = false ∧
    scrapeBBBAvailability wC3 [TimePeriod.morning]
      = (Except.error "Failed to select target date", true) :=
  ⟨rfl, rfl⟩

/-- Claim C3 (amended): whenever the target day cannot be located as an
enabled clickable calendar control, the bbb scrape attempt throws the
error `Failed to select target date` (after closing the browser), so the
attempt is a failure handed to the retry shell — not a success
ScrapeOutcome with an empty slot list. -/
theorem c3_date_unavailable_throws (w : BBBWorld) (periods : List TimePeriod)
    (hl : w.launch = Except.ok ()) (hn : w.nav = Except.ok ())
    (hd : w.dateSelected = false) :
    (scrapeBBBAvailability w periods).1
      = Except.error "Failed to select target date" := by
  simp [scrapeBBBAvailability, runBBBBody, hl, hn, hd]

/-- Witness for C3's amended theorem at the concrete world `wC3`. -/
theorem c3_date_unavailable_throws_witness :
    (scrapeBBBAvailability wC3 [TimePeriod.morning]).1
      = Except.error "Failed to select target date" :=
  c3_date_unavailable_throws wC3 [TimePeriod.morning] rfl rfl rfl

/-- Claim C5: with `maxAttempts = 3` and a scrape that throws on the first
two attempts and succeeds on the third, the retry shell ends with the
successful slots, no recorded error, exactly two executed backoff sleeps
(one after each failure, none after the success), three scrape calls, and
reports the successful outcome. -/
theorem c5_retry_two_failures_then_success
    (scrape : Nat → Except String (List BBBSlot)) (e1 e2 : String)
    (s : List BBBSlot)
    (h1 : scrape 1 = Except.error e1) (h2 : scrape 2 = Except.error e2)
    (h3 : scrape 3 = Except.ok s) :
    runRetryLoop scrape 3 = ⟨none, s, 2, 3⟩ ∧
    reportPayload (runRetryLoop scrape 3) = (s, none) := by
  have hrun : runRetryLoop scrape 3 = ⟨none, s, 2, 3⟩ := by
    show retryGo scrape 3 3 1 ⟨none, [], 0, 0⟩ = ⟨none, s, 2, 3⟩
    rw [show (3 : Nat) = 2 + 1 from rfl, retryGo, h1]
    norm_num
    rw [show (2 : Nat) = 1 + 1 from rfl, retryGo, h2]
    norm_num
    rw [show (1 : Nat) = 0 + 1 from rfl, retryGo, h3]
  exact ⟨hrun, by rw [hrun]; rfl⟩

/-- Witness for C5 at the concrete scrape function `scrapeC5fn`. -/
theorem c5_retry_witness :
    runRetryLoop scrapeC5fn 3 = ⟨none, [⟨"5:30 PM", TimePeriod.evening, true⟩], 2, 3⟩ ∧
    reportPayload (runRetryLoop scrapeC5fn 3)
      = ([⟨"5:30 PM", TimePeriod.evening, true⟩], none) :=
  c5_retry_two_failures_then_success scrapeC5fn "fail 1" "fail 2"
    [⟨"5:30 PM", TimePeriod.evening, true⟩] rfl rfl rfl

/-- Claim C6: with a scrape that throws on every attempt, the retry shell
stops after exactly `maxAttempts` scrape calls, records the last failure's
message, keeps an empty slot list throughout, and reports a failure
outcome carrying the last message and no slots. -/
theorem c6_retry_exhaustion (scrape : Nat → Except String (List BBBSlot))
    (e : Nat → String) (n : Nat) (hn : 1 ≤ n)
    (hfail : ∀ i, scrape i = Except.error (e i)) :
    runRetryLoop scrape n = ⟨some (e n), [], n - 1, n⟩ ∧
    reportPayload (runRetryLoop scrape n) = ([], some (e n)) := by
  have h := retryGo_all_fail scrape e n hfail n 1 ⟨none, [], 0, 0⟩ hn (by omega)
  have hrun : runRetryLoop scrape n = ⟨some (e n), [], n - 1, n⟩ := by
    show retryGo scrape n n 1 ⟨none, [], 0, 0⟩ = _
    rw [h]
    simp
  exact ⟨hrun, by rw [hrun]; rfl⟩

/-- Witness for C6 at the concrete scrape function `scrapeC6fn` with
`maxAttempts = 3`. -/
theorem c6_retry_exhaustion_witness :
    runRetryLoop scrapeC6fn 3 = ⟨some "scrape failed", [], 2, 3⟩ ∧
    reportPayload (runRetryLoop scrapeC6fn 3) = ([], some "scrape failed") :=
  c6_retry_exhaustion scrapeC6fn (fun _ => "scrape failed") 3 (by omega)
    (fun _ => rfl)

/-- Claim C7: whenever the browser launch succeeded, `scrapeBBBAvailability`
closes the browser on every exit path — the `finally` block runs both when
the body returns normally and when any stage throws — and hands the body's
result or error through unchanged. -/
theorem c7_browser_closed (w : BBBWorld) (periods : List TimePeriod)
    (hl : w.launch = Except.ok ()) :
    scrapeBBBAvailability w periods = (runBBBBody w periods, true) := by
  simp [scrapeBBBAvailability, hl]

/-- Witness for C7 at the concrete world `wC7`, whose navigation throws:
the browser is still closed and the error propagates. -/
theorem c7_browser_closed_witness :
    scrapeBBBAvailability wC7 [TimePeriod.morning]
      = (Except.error "page.goto: Timeout 30000ms exceeded", true) :=
  (c7_browser_closed wC7 [TimePeriod.morning] rfl).trans rfl

/-- Claim C8: in a successful attempt every requested period is checked in
order (the result list is the map over the requested periods); a period
whose check throws contributes an entry with empty slots and that error
message, without stopping the other periods; and a period whose panel
shows the "no availability" signature contributes an entry with zero slots
and no error. -/
theorem c8_period_isolation (w : BBBWorld) (periods : List TimePeriod)
    (hl : w.launch = Except.ok ()) (hn : w.nav = Except.ok ())
    (hd : w.dateSelected = true) (h1 : w.next1 = Except.ok ())
    (hg : w.guests = Except.ok ()) (h2 : w.next2 = Except.ok ()) :
    (scrapeBBBAvailability w periods).1
      = Except.ok (periods.map (periodResult w)) ∧
    (∀ p e, checkTimePeriod (w.periodPage p) p = Except.error e →
      periodResult w p = ⟨p, [], some e⟩) ∧
    (∀ p n, (w.periodPage p).tabClick = Except.ok () →
      (w.periodPage p).noAvailCount = Except.ok n → 0 < n →
      periodResult w p = ⟨p, [], none⟩) := by
  refine ⟨?_, ?_, ?_⟩
  · simp [scrapeBBBAvailability, runBBBBody, hl, hn, hd, h1, hg, h2]
  · intro p e he
    simp [periodResult, he]
  · intro p n ht hc hpos
    simp [periodResult, checkTimePeriod, ht, hc, hpos]

/-- Witness for C8 at the concrete world `wC8` with requested periods
morning and evening: morning (a "no availability" panel) yields zero slots
and no error, evening yields its one enabled slot. -/
theorem c8_period_isolation_witness :
    (scrapeBBBAvailability wC8 [TimePeriod.morning, TimePeriod.evening]).1
      = Except.ok
          [⟨TimePeriod.morning, [], none⟩,
           ⟨TimePeriod.evening, [⟨"5:30 PM", TimePeriod.evening, true⟩], none⟩] :=
  ((c8_period_isolation wC8 [TimePeriod.morning, TimePeriod.evening]
      rfl rfl rfl rfl rfl rfl).1).trans rfl

/-- Helper: the empty string has no time match. -/
theorem jsFindTime_empty (b : Bool) : jsFindTime b "".data = none := rfl

/-- Helper: the empty character list has no time match. -/
theorem jsFindTime_nil (b : Bool) : jsFindTime b [] = none := rfl

/-- Claim C2 counterexample: the button `bC2` has visible text `7:30 PM`
matching the time pattern, no `disabled` attribute, no `aria-disabled`
attribute, and its class list (the whitespace-split tokens of the class
attribute) does not contain the token `disabled` — so under the claim's
availability conjuncts it should become a Slot — yet the extraction loop
produces no Slot for it, because the code tests substring containment of
`disabled` in the class attribute, which holds for `time-slot--disabled`. -/
theorem c2_class_token_counterexample :
    extractTimeSlots TimePeriod.evening [bC2] = [] ∧
    (jsFindTime false "7:30 PM".data).isSome = true ∧
    bC2.text = some "7:30 PM" ∧
    bC2.disabled = none ∧
    bC2.ariaDisabled = none ∧
    listHasToken (classList (bC2.className.getD "")) "disabled" = false :=
  ⟨rfl, rfl, rfl, rfl, rfl, rfl⟩

/-- Claim C2 (amended): the extraction loop produces exactly the Slots of
the per-element classifier `slotOfElement` — an element becomes a Slot
exactly when its text has a leftmost match of the time pattern
`(\d{1,2}):(\d{2})\s*(AM|PM)` (case-insensitive) and it is available,
availability being the logical AND of: no `disabled` attribute present,
`aria-disabled` not equal to the string `true`, and the class attribute
string not containing `disabled` as a substring; every element failing the
pattern or any availability conjunct produces no Slot. -/
theorem c2_extraction_characterization (period : TimePeriod)
    (btns : List BtnElem) :
    extractTimeSlots period btns = btns.filterMap (slotOfElement period) := by
  induction btns with
  | nil => rfl
  | cons b rest ih =>
    rcases htext : b.text with _ | t
    · simp [extractTimeSlots, slotOfElement, List.filterMap_cons, htext, ih]
    · by_cases ht : t = ""
      · subst ht
        simp [extractTimeSlots, slotOfElement, List.filterMap_cons, htext,
          jsFindTime_empty, jsFindTime_nil, ih]
      · rcases hm : jsFindTime false t.data with _ | m
        · simp [extractTimeSlots, slotOfElement, List.filterMap_cons, htext,
            ht, hm, ih]
        · by_cases hav : b.disabled = none ∧ b.ariaDisabled ≠ some "true" ∧
            substrContains (b.className.getD "") "disabled" = false
          · simp [extractTimeSlots, slotOfElement, List.filterMap_cons, htext,
              ht, hm, hav, ih]
          · simp [extractTimeSlots, slotOfElement, List.filterMap_cons, htext,
              ht, hm, hav, ih]

/-- Helper: a page transition that preserves the month/year heading keeps
the bounded navigation loop stepping until its fuel runs out when the
displayed month/year never equals the target. -/
theorem navLoop_display_const (step : CalPage → CalPage) (tm ty m y : Nat)
    (hstep : ∀ q, (step q).monthYear = q.monthYear)
    (hne : ¬(m = tm ∧ y = ty)) :
    ∀ (n : Nat) (p : CalPage), p.monthYear = some (some (m, y)) →
      navLoop step tm ty n p = step^[n] p := by
  intro n
  induction n with
  | zero => intro p _; rfl
  | succ k ih =>
    intro p hp
    have hstep_p : (step p).monthYear = some (some (m, y)) := by
      rw [hstep]; exact hp
    calc navLoop step tm ty (k + 1) p
        = navLoop step tm ty k (step p) := by
          simp only [navLoop, hp, hne, if_false]
      _ = step^[k] (step p) := ih (step p) hstep_p
      _ = step^[k + 1] p := (Function.iterate_succ_apply step k p).symm

/-- Claim C4 counterexample: on the calendar page `pC4` the displayed
month/year is January 2026 and never changes (the transition is the
identity), while the target is month index 5 of 2026 — so the displayed
month never matches within the 12-step bound — yet `selectDate` raises no
failure: it proceeds to the day-click search, finds the enabled button
labelled `15` in the wrong month, clicks it and returns `true`. -/
theorem c4_counterexample :
    pC4.monthYear = some (some (0, 2026)) ∧
    decide ((0 : Nat) = 5) = false ∧
    selectDate id 5 2026 15 pC4 = true :=
  ⟨rfl, rfl, rfl⟩

/-- Claim C4 (amended): the month-navigation loop is bounded at 12 steps,
so it never runs indefinitely; but when the displayed month/year never
matches the target, no `CalendarNavigationExhausted` failure is raised —
after the bound `selectDate` proceeds to the day-click search on whatever
calendar page the 12 navigation steps produced, and returns that search's
boolean. -/
theorem c4_bounded_navigation (step : CalPage → CalPage) (tm ty td m y : Nat)
    (p : CalPage)
    (hstep : ∀ q, (step q).monthYear = q.monthYear)
    (hp : p.monthYear = some (some (m, y)))
    (hne : ¬(m = tm ∧ y = ty)) :
    selectDate step tm ty td p = clickTargetDay td ((step^[12]) p).buttons := by
  unfold selectDate
  rw [navLoop_display_const step tm ty m y hstep hne 12 p hp]

/-- Witness for C4's amended theorem on the concrete stuck page `pC4`. -/
theorem c4_bounded_navigation_witness :
    selectDate id 5 2026 15 pC4 = clickTargetDay 15 ((id^[12]) pC4).buttons :=
  c4_bounded_navigation id 5 2026 15 0 2026 pC4 (fun _ => rfl) rfl (by omega)

/-- Helper: a found index is below the starting offset plus the list
length. -/
theorem indexOfAux_lt (target : String) :
    ∀ (l : List String) (i j : Nat), indexOfAux target l i = some j →
      j < i + l.length := by
  intro l
  induction l with
  | nil => intro i j h; simp [indexOfAux] at h
  | cons d rest ih =>
    intro i j h
    by_cases hd : d = target
    · simp [indexOfAux, hd] at h
      simp only [List.length_cons]
      omega
    · simp only [indexOfAux, hd, if_false] at h
      have := ih (i + 1) j h
      simp only [List.length_cons]
      omega

/-- Claim C9: for a weekday name found in the table at index `idx`,
`getNextDayOfWeek` returns a day that falls on that weekday, is strictly
after today, at most seven days after today, and is exactly seven days
ahead when today already falls on that weekday. -/
theorem c9_next_day_of_week (today idx : Nat) (dayName : String)
    (hidx : indexOfAux dayName dayNames 0 = some idx) :
    getNextDayOfWeek today dayName = Except.ok (nextOccurrence today idx) ∧
    weekday (nextOccurrence today idx) = idx ∧
    today < nextOccurrence today idx ∧
    nextOccurrence today idx ≤ today + 7 ∧
    (weekday today = idx → nextOccurrence today idx = today + 7) := by
  have h7 : idx < 7 := by
    have := indexOfAux_lt dayName dayNames 0 idx hidx
    simpa [dayNames] using this
  refine ⟨by simp [getNextDayOfWeek, hidx], ?_, ?_, ?_, ?_⟩
  · simp only [nextOccurrence, weekday]
    split <;> omega
  · simp only [nextOccurrence, weekday]
    split <;> omega
  · simp only [nextOccurrence, weekday]
    split <;> omega
  · intro hw
    simp only [weekday] at hw
    simp only [nextOccurrence, weekday, hw]
    split <;> omega

/-- Witness for C9: on day 5 (a Tuesday under the epoch convention),
requesting Tuesday returns day 12, seven days ahead and again a Tuesday. -/
theorem c9_next_day_of_week_witness :
    getNextDayOfWeek 5 "Tuesday" = Except.ok 12 ∧
    weekday 12 = 2 ∧ weekday 5 = 2 := by
  have h := c9_next_day_of_week 5 2 "Tuesday" (by decide)
  have e : nextOccurrence 5 2 = 12 := by decide
  exact ⟨e ▸ h.1, by decide, by decide⟩

/-- Claim C10: `getTimePeriod` is total on strings — an input with no
match of the pattern is classified morning, and a matching input is
classified morning exactly when its 24-hour hour is below 12, afternoon
exactly when it is at least 12 and below 16, and evening exactly when it
is 16 or greater. -/
theorem c10_time_period_total (s : String) :
    (jsFindTime true s.data = none → getTimePeriod s = TimePeriod.morning) ∧
    (∀ m, jsFindTime true s.data = some m →
      ((getTimePeriod s = TimePeriod.morning ↔
          to24Hour m.hours m.meridiem < 12) ∧
       (getTimePeriod s = TimePeriod.afternoon ↔
          (12 ≤ to24Hour m.hours m.meridiem ∧ to24Hour m.hours m.meridiem < 16)) ∧
       (getTimePeriod s = TimePeriod.evening ↔
          16 ≤ to24Hour m.hours m.meridiem))) := by
  constructor
  · intro h
    simp [getTimePeriod, h]
  · intro m hm
    simp only [getTimePeriod, hm]
    by_cases h1 : to24Hour m.hours m.meridiem < 12
    · rw [if_pos h1]
      exact ⟨⟨fun _ => h1, fun _ => rfl⟩,
        ⟨fun hx => absurd hx (by decide), fun hx => absurd h1 (by omega)⟩,
        ⟨fun hx => absurd hx (by decide), fun hx => absurd h1 (by omega)⟩⟩
    · by_cases h2 : to24Hour m.hours m.meridiem < 16
      · rw [if_neg h1, if_pos h2]
        exact ⟨⟨fun hx => absurd hx (by decide), fun hx => absurd hx h1⟩,
          ⟨fun _ => ⟨by omega, h2⟩, fun _ => rfl⟩,
          ⟨fun hx => absurd hx (by decide), fun hx => absurd h2 (by omega)⟩⟩
      · rw [if_neg h1, if_neg h2]
        exact ⟨⟨fun hx => absurd hx (by decide), fun hx => absurd hx h1⟩,
          ⟨fun hx => absurd hx (by decide), fun hx => absurd hx.2 h2⟩,
          ⟨fun _ => by omega, fun _ => rfl⟩⟩

/-- Witness for C10: `2:30 PM` (24-hour hour 14) is classified afternoon
through the theorem's characterization, and the non-matching input
`hello` is classified morning. -/
theorem c10_time_period_total_witness :
    getTimePeriod "2:30 PM" = TimePeriod.afternoon ∧
    getTimePeriod "hello" = TimePeriod.morning := by
  constructor
  · have h := (c10_time_period_total "2:30 PM").2
      ⟨2, "30", some Meridiem.PM, "2:30 PM"⟩ (by decide)
    exact h.2.1.mpr (by decide)
  · exact (c10_time_period_total "hello").1 (by decide)

/-- Helper: the alternation accepts the canonical uppercase AM. -/
theorem parseMer_AM : parseMer ['A', 'M'] = some (Meridiem.AM, ['A', 'M'], []) := rfl

/-- Helper: the alternation accepts the canonical uppercase PM. -/
theorem parseMer_PM : parseMer ['P', 'M'] = some (Meridiem.PM, ['P', 'M'], []) := rfl

/-- Helper: a colon is not a digit. -/
theorem isDigit_colon : isDigitChar ':' = false := rfl

/-- Helper: the pattern tail matches `:(MM) AM` for any digit characters. -/
theorem matchTail_valid_AM (optMer : Bool) (hcs : List Char) (m1 m2 : Char)
    (hm1 : isDigitChar m1 = true) (hm2 : isDigitChar m2 = true) :
    matchTail optMer hcs (':' :: m1 :: m2 :: ' ' :: merChars Meridiem.AM)
      = some ⟨digitsToNat hcs, String.mk [m1, m2], some Meridiem.AM,
          String.mk (hcs ++ ':' :: m1 :: m2 :: ' ' :: merChars Meridiem.AM)⟩ := by
  simp only [matchTail, hm1, hm2, Bool.and_self, if_true, merChars]
  rfl

/-- Helper: the pattern tail matches `:(MM) PM` for any digit characters. -/
theorem matchTail_valid_PM (optMer : Bool) (hcs : List Char) (m1 m2 : Char)
    (hm1 : isDigitChar m1 = true) (hm2 : isDigitChar m2 = true) :
    matchTail optMer hcs (':' :: m1 :: m2 :: ' ' :: merChars Meridiem.PM)
      = some ⟨digitsToNat hcs, String.mk [m1, m2], some Meridiem.PM,
          String.mk (hcs ++ ':' :: m1 :: m2 :: ' ' :: merChars Meridiem.PM)⟩ := by
  simp only [matchTail, hm1, hm2, Bool.and_self, if_true, merChars]
  rfl

/-- Helper: the anchored match succeeds on a whole valid time string. -/
theorem tryMatchAt_valid (optMer : Bool) (hcs : List Char) (h : Nat)
    (m1 m2 : Char) (mer : Meridiem) (hh : HourChars hcs h)
    (hm1 : isDigitChar m1 = true) (hm2 : isDigitChar m2 = true) :
    tryMatchAt optMer (hcs ++ ':' :: m1 :: m2 :: ' ' :: merChars mer)
      = some ⟨h, String.mk [m1, m2], some mer,
          String.mk (hcs ++ ':' :: m1 :: m2 :: ' ' :: merChars mer)⟩ := by
  have hmt : ∀ hd : List Char,
      matchTail optMer hd (':' :: m1 :: m2 :: ' ' :: merChars mer)
        = some ⟨digitsToNat hd, String.mk [m1, m2], some mer,
            String.mk (hd ++ ':' :: m1 :: m2 :: ' ' :: merChars mer)⟩ := by
    intro hd
    cases mer
    · exact matchTail_valid_AM optMer hd m1 m2 hm1 hm2
    · exact matchTail_valid_PM optMer hd m1 m2 hm1 hm2
  rcases hh with ⟨d, rfl, hd, hdv⟩ | ⟨d1, d2, rfl, hd1, hd2, hdv⟩
  · simp only [List.cons_append, List.nil_append, tryMatchAt, hd, if_true,
      isDigit_colon, Bool.false_eq_true, if_false]
    rw [hmt [d]]
    simp only [List.cons_append, List.nil_append, hdv]
  · simp only [List.cons_append, List.nil_append, tryMatchAt, hd1, hd2,
      if_true]
    rw [hmt [d1, d2]]
    simp only [List.cons_append, List.nil_append, hdv]

/-- Helper: the leftmost search finds the match at position 0 of a whole
valid time string. -/
theorem jsFindTime_valid (optMer : Bool) (hcs : List Char) (h : Nat)
    (m1 m2 : Char) (mer : Meridiem) (hh : HourChars hcs h)
    (hm1 : isDigitChar m1 = true) (hm2 : isDigitChar m2 = true) :
    jsFindTime optMer (hcs ++ ':' :: m1 :: m2 :: ' ' :: merChars mer)
      = some ⟨h, String.mk [m1, m2], some mer,
          String.mk (hcs ++ ':' :: m1 :: m2 :: ' ' :: merChars mer)⟩ := by
  have htry := tryMatchAt_valid optMer hcs h m1 m2 mer hh hm1 hm2
  rcases hh with ⟨d, rfl, _, _⟩ | ⟨d1, d2, rfl, _, _, _⟩
  · simp only [List.cons_append, List.nil_append] at htry ⊢
    rw [jsFindTime, htry]
  · simp only [List.cons_append, List.nil_append] at htry ⊢
    rw [jsFindTime, htry]

/-- Claim C1: for every valid 12-hour time string `H:MM AM/PM` (hour 1-12,
two minute digits), the match extracts exactly the written hour, minutes
and meridiem, the 12-to-24 conversion shared by `filterSlotsByTimeWindow`
and `getTimePeriod` equals the claimed exact conversion (hour 12 with AM
becomes 0, hour 12 with PM stays 12, PM hours other than 12 gain 12, AM
hours other than 12 are unchanged), and the formatted 24-hour string
preserves the minutes verbatim. -/
theorem c1_time_conversion_exact (hcs : List Char) (h : Nat) (m1 m2 : Char)
    (mer : Meridiem) (hh : HourChars hcs h)
    (hm1 : isDigitChar m1 = true) (hm2 : isDigitChar m2 = true)
    (hlo : 1 ≤ h) (hhi : h ≤ 12) :
    jsFindTime true (hcs ++ ':' :: m1 :: m2 :: ' ' :: merChars mer)
      = some ⟨h, String.mk [m1, m2], some mer,
          String.mk (hcs ++ ':' :: m1 :: m2 :: ' ' :: merChars mer)⟩ ∧
    to24Hour h (some mer) = claim24Hour h mer ∧
    slotTime24 (String.mk (hcs ++ ':' :: m1 :: m2 :: ' ' :: merChars mer))
      = some (pad2 (claim24Hour h mer) ++ ":" ++ String.mk [m1, m2] ++ ":00") := by
  have hfind := jsFindTime_valid true hcs h m1 m2 mer hh hm1 hm2
  have hconv : to24Hour h (some mer) = claim24Hour h mer := by
    cases mer
    · by_cases h12 : h = 12 <;> simp [to24Hour, claim24Hour, h12]
    · by_cases h12 : h = 12 <;> simp [to24Hour, claim24Hour, h12]
  refine ⟨hfind, hconv, ?_⟩
  show (match jsFindTime true
      (String.mk (hcs ++ ':' :: m1 :: m2 :: ' ' :: merChars mer)).data with
    | none => none
    | some m => some (pad2 (to24Hour m.hours m.meridiem) ++ ":" ++ m.minutes ++ ":00"))
    = some (pad2 (claim24Hour h mer) ++ ":" ++ String.mk [m1, m2] ++ ":00")
  rw [show (String.mk (hcs ++ ':' :: m1 :: m2 :: ' ' :: merChars mer)).data
      = hcs ++ ':' :: m1 :: m2 :: ' ' :: merChars mer from rfl]
  rw [hfind]
  show some (pad2 (to24Hour h (some mer)) ++ ":" ++ String.mk [m1, m2] ++ ":00")
    = some (pad2 (claim24Hour h mer) ++ ":" ++ String.mk [m1, m2] ++ ":00")
  rw [hconv]

/-- Witness for C1 at the four example strings of the claim:
`12:00 AM` converts to `00:00`, `12:30 PM` to `12:30`, `1:15 PM` to
`13:15`, `11:59 PM` to `23:59` (each with the `:00` seconds suffix the
window comparison appends). -/
theorem c1_time_conversion_exact_witness :
    slotTime24 "12:00 AM" = some "00:00:00" ∧
    slotTime24 "12:30 PM" = some "12:30:00" ∧
    slotTime24 "1:15 PM" = some "13:15:00" ∧
    slotTime24 "11:59 PM" = some "23:59:00" := by
  have h1 := (c1_time_conversion_exact ['1', '2'] 12 '0' '0' Meridiem.AM
    (Or.inr ⟨'1', '2', rfl, rfl, rfl, rfl⟩) rfl rfl (by omega) (by omega)).2.2
  have h2 := (c1_time_conversion_exact ['1', '2'] 12 '3' '0' Meridiem.PM
    (Or.inr ⟨'1', '2', rfl, rfl, rfl, rfl⟩) rfl rfl (by omega) (by omega)).2.2
  have h3 := (c1_time_conversion_exact ['1'] 1 '1' '5' Meridiem.PM
    (Or.inl ⟨'1', rfl, rfl, rfl⟩) rfl rfl (by omega) (by omega)).2.2
  have h4 := (c1_time_conversion_exact ['1', '1'] 11 '5' '9' Meridiem.PM
    (Or.inr ⟨'1', '1', rfl, rfl, rfl, rfl⟩) rfl rfl (by omega) (by omega)).2.2
  refine ⟨?_, ?_, ?_, ?_⟩
  · exact ((show slotTime24 "12:00 AM"
      = slotTime24 (String.mk (['1', '2'] ++ ':' :: '0' :: '0' :: ' ' :: merChars Meridiem.AM))
      from rfl).trans h1).trans (by decide)
  · exact ((show slotTime24 "12:30 PM"
      = slotTime24 (String.mk (['1', '2'] ++ ':' :: '3' :: '0' :: ' ' :: merChars Meridiem.PM))
      from rfl).trans h2).trans (by decide)
  · exact ((show slotTime24 "1:15 PM"
      = slotTime24 (String.mk (['1'] ++ ':' :: '1' :: '5' :: ' ' :: merChars Meridiem.PM))
      from rfl).trans h3).trans (by decide)
  · exact ((show slotTime24 "11:59 PM"
      = slotTime24 (String.mk (['1', '1'] ++ ':' :: '5' :: '9' :: ' ' :: merChars Meridiem.PM))
      from rfl).trans h4).trans (by decide)
